import Mathlib

/-!
Verification development for the AiScoPre prediction pipeline.

The development shallowly embeds the parts of the system that carry the
coordination logic:

* `src/services/model_service.py` — the toy outcome model
  (`ModelServiceServicer.PredictMatchOutcome` and `_sigmoid`), embedded over
  the reals (Python floats are modelled as real numbers).
* `src/services/match_service.py` — `MatchServiceServicer.GetMatch` over an
  in-memory repository.
* `src/services/prediction_service.py` — `SimplePredictionCache`,
  `PredictionServiceServicer._compute_prediction`, `GetPrediction` and
  `StreamPrediction`.

Effects are made explicit: every collaborator stub returns
`Except RpcError _` (a gRPC non-OK status surfaces to the client stub as a
raised error), the orchestrator threads an explicit state holding the cache
and per-collaborator call counters, and wall-clock instants are passed in as
exact rationals (`time.time()` values are only ever stored and compared, so
an ordered field with decidable order is a faithful model).  The streaming
handler is a fuel-indexed run function: the fuel bounds how many loop
iterations are observed before the subscriber cancels.
-/

namespace AiScoPre

/-- The gRPC status codes set by the embedded services. -/
inductive StatusCode where
  | notFound
  | invalidArgument
  deriving DecidableEq, Repr

/-- An RPC failure as observed by a calling stub: a status code plus the
detail string set via `context.set_details`. -/
structure RpcError where
  code : StatusCode
  details : String
  deriving DecidableEq, Repr

/-! ### Outcome model (`src/services/model_service.py`) -/

/-- `_sigmoid` from `model_service.py`: `1.0 / (1.0 + math.exp(-x))`. -/
noncomputable def sigmoid (x : ℝ) : ℝ := 1 / (1 + Real.exp (-x))

/-- The model signal `base`: `elo_diff / 300.0`, scaled by `1.2` when
`is_knockout > 0.5`. -/
noncomputable def modelBase (elo_diff is_knockout : ℝ) : ℝ :=
  let base := elo_diff / 300
  if is_knockout > 0.5 then base * 1.2 else base

/-- `home_win_prob = _sigmoid(base)` before normalization. -/
noncomputable def modelHomeWin (elo_diff is_knockout : ℝ) : ℝ :=
  sigmoid (modelBase elo_diff is_knockout)

/-- `draw_prob = max(0.15, 0.35 - elo_gap / 1000.0)` with
`elo_gap = abs(elo_diff)`, before normalization. -/
noncomputable def modelDraw (elo_diff : ℝ) : ℝ :=
  max 0.15 (0.35 - |elo_diff| / 1000)

/-- `away_win_prob = max(0.0, 1.0 - home_win_prob - draw_prob)` before
normalization. -/
noncomputable def modelAwayRaw (elo_diff is_knockout : ℝ) : ℝ :=
  max 0 (1 - modelHomeWin elo_diff is_knockout - modelDraw elo_diff)

/-- `total = home_win_prob + draw_prob + away_win_prob`, the
pre-normalization sum. -/
noncomputable def modelTotal (elo_diff is_knockout : ℝ) : ℝ :=
  modelHomeWin elo_diff is_knockout + modelDraw elo_diff +
    modelAwayRaw elo_diff is_knockout

/-- `ModelServiceServicer.PredictMatchOutcome`.  The Python code checks
`len(features) < 4` and then unpacks `features[:4]` into
`home_elo, away_elo, elo_diff, is_knockout`; the two cases of the list match
below are exactly those two paths (`home_elo` and `away_elo` are unpacked
but unused by the model, as in the source).  On the short-vector path the
servicer sets `INVALID_ARGUMENT` with detail `"expected at least 4
features"`, which a client stub observes as an error. -/
noncomputable def PredictMatchOutcome (features : List ℝ) :
    Except RpcError (ℝ × ℝ × ℝ) :=
  match features with
  | _home_elo :: _away_elo :: elo_diff :: is_knockout :: _ =>
    let home_win_prob := modelHomeWin elo_diff is_knockout
    let draw_prob := modelDraw elo_diff
    let away_win_prob := modelAwayRaw elo_diff is_knockout
    let total := home_win_prob + draw_prob + away_win_prob
    if total ≤ 0 then .ok (1 / 3, 1 / 3, 1 / 3)
    else .ok (home_win_prob / total, draw_prob / total, away_win_prob / total)
  | _ => .error ⟨.invalidArgument, "expected at least 4 features"⟩

/-! Basic facts about the model's intermediate quantities. -/

theorem sigmoid_pos (x : ℝ) : 0 < sigmoid x := by
  unfold sigmoid
  positivity

theorem sigmoid_lt_one (x : ℝ) : sigmoid x < 1 := by
  unfold sigmoid
  rw [div_lt_one (by positivity)]
  linarith [Real.exp_pos (-x)]

theorem sigmoid_zero : sigmoid 0 = 1 / 2 := by
  unfold sigmoid
  rw [neg_zero, Real.exp_zero]
  norm_num

theorem modelDraw_ge (elo_diff : ℝ) : 0.15 ≤ modelDraw elo_diff :=
  le_max_left _ _

theorem modelAwayRaw_nonneg (elo_diff is_knockout : ℝ) :
    0 ≤ modelAwayRaw elo_diff is_knockout :=
  le_max_left _ _

theorem modelTotal_pos (elo_diff is_knockout : ℝ) :
    0 < modelTotal elo_diff is_knockout := by
  have h1 := sigmoid_pos (modelBase elo_diff is_knockout)
  have h2 := modelDraw_ge elo_diff
  have h3 := modelAwayRaw_nonneg elo_diff is_knockout
  unfold modelTotal modelHomeWin
  linarith

/-- Evaluation of `PredictMatchOutcome` on a vector with at least four
elements, phrased through the named intermediate quantities. -/
theorem predictMatchOutcome_cons (home_elo away_elo elo_diff is_knockout : ℝ)
    (rest : List ℝ) :
    PredictMatchOutcome (home_elo :: away_elo :: elo_diff :: is_knockout :: rest) =
      if modelTotal elo_diff is_knockout ≤ 0 then .ok (1 / 3, 1 / 3, 1 / 3)
      else .ok (modelHomeWin elo_diff is_knockout / modelTotal elo_diff is_knockout,
        modelDraw elo_diff / modelTotal elo_diff is_knockout,
        modelAwayRaw elo_diff is_knockout / modelTotal elo_diff is_knockout) := rfl

/-- The model only ever looks at the first four features (`features[:4]`). -/
theorem predictMatchOutcome_take (f : List ℝ) :
    PredictMatchOutcome (f.take 4) = PredictMatchOutcome f := by
  rcases f with _ | ⟨a, _ | ⟨b, _ | ⟨c, _ | ⟨d, tf⟩⟩⟩⟩ <;> rfl

theorem modelBase_eloDiff_zero (is_knockout : ℝ) : modelBase 0 is_knockout = 0 := by
  unfold modelBase
  split <;> norm_num

theorem modelHomeWin_eloDiff_zero (is_knockout : ℝ) :
    modelHomeWin 0 is_knockout = 1 / 2 := by
  unfold modelHomeWin
  rw [modelBase_eloDiff_zero, sigmoid_zero]

theorem modelDraw_eloDiff_zero : modelDraw 0 = 7 / 20 := by
  unfold modelDraw
  rw [abs_zero]
  rw [max_eq_right (by norm_num)]
  norm_num

theorem modelAwayRaw_eloDiff_zero (is_knockout : ℝ) :
    modelAwayRaw 0 is_knockout = 3 / 20 := by
  unfold modelAwayRaw
  rw [modelHomeWin_eloDiff_zero, modelDraw_eloDiff_zero]
  rw [max_eq_right (by norm_num)]
  norm_num

/-- Shared evaluation: whenever the `elo_diff` feature is `0`, the model
returns exactly `(0.5, 0.35, 0.15)` (the knockout scaling multiplies a zero
signal, so the knockout flag is irrelevant). -/
theorem predict_eloDiff_zero (home_elo away_elo is_knockout : ℝ) (rest : List ℝ) :
    PredictMatchOutcome (home_elo :: away_elo :: 0 :: is_knockout :: rest) =
      .ok (1 / 2, 7 / 20, 3 / 20) := by
  have htot : modelTotal 0 is_knockout = 1 := by
    unfold modelTotal
    rw [modelHomeWin_eloDiff_zero, modelDraw_eloDiff_zero, modelAwayRaw_eloDiff_zero]
    norm_num
  rw [predictMatchOutcome_cons, htot,
    modelHomeWin_eloDiff_zero, modelDraw_eloDiff_zero, modelAwayRaw_eloDiff_zero]
  norm_num

/-- Helper: on a vector with fewer than 4 elements the model reports
`INVALID_ARGUMENT` with the exact detail string from the source. -/
theorem predictMatchOutcome_short (features : List ℝ) (h : features.length < 4) :
    PredictMatchOutcome features =
      .error ⟨.invalidArgument, "expected at least 4 features"⟩ := by
  rcases features with _ | ⟨a, _ | ⟨b, _ | ⟨c, _ | ⟨d, t⟩⟩⟩⟩
  · rfl
  · rfl
  · rfl
  · rfl
  · simp only [List.length_cons] at h
    omega

/-- Claim C3: for every feature vector with at least 4 elements the model
returns a triple with each component in `[0, 1]` whose sum is `1` up to the
`1e-6` tolerance (over the reals it is exactly `1`), and whenever the
pre-normalization total is degenerate (`≤ 0`) the returned triple is
`(1/3, 1/3, 1/3)`. -/
theorem predictMatchOutcome_props (home_elo away_elo elo_diff is_knockout : ℝ)
    (rest : List ℝ) :
    ∃ h d a : ℝ,
      PredictMatchOutcome (home_elo :: away_elo :: elo_diff :: is_knockout :: rest) =
        .ok (h, d, a) ∧
      0 ≤ h ∧ h ≤ 1 ∧ 0 ≤ d ∧ d ≤ 1 ∧ 0 ≤ a ∧ a ≤ 1 ∧
      |h + d + a - 1| ≤ 1 / 1000000 ∧
      (modelTotal elo_diff is_knockout ≤ 0 → (h, d, a) = (1 / 3, 1 / 3, 1 / 3)) := by
  have hhw := sigmoid_pos (modelBase elo_diff is_knockout)
  have hhw1 := sigmoid_lt_one (modelBase elo_diff is_knockout)
  have hd := modelDraw_ge elo_diff
  have ha := modelAwayRaw_nonneg elo_diff is_knockout
  have htot := modelTotal_pos elo_diff is_knockout
  have hwdef : modelHomeWin elo_diff is_knockout =
      sigmoid (modelBase elo_diff is_knockout) := rfl
  rw [← hwdef] at hhw hhw1
  have htotdef : modelTotal elo_diff is_knockout =
      modelHomeWin elo_diff is_knockout + modelDraw elo_diff +
        modelAwayRaw elo_diff is_knockout := rfl
  refine ⟨_, _, _,
    by rw [predictMatchOutcome_cons, if_neg (not_le.mpr htot)],
    ?_, ?_, ?_, ?_, ?_, ?_, ?_, fun habs => absurd habs (not_le.mpr htot)⟩
  · exact div_nonneg (by linarith) htot.le
  · rw [div_le_one htot, htotdef]
    linarith
  · exact div_nonneg (by linarith) htot.le
  · rw [div_le_one htot, htotdef]
    linarith
  · exact div_nonneg ha htot.le
  · rw [div_le_one htot, htotdef]
    linarith
  · have hsum : modelHomeWin elo_diff is_knockout / modelTotal elo_diff is_knockout +
        modelDraw elo_diff / modelTotal elo_diff is_knockout +
        modelAwayRaw elo_diff is_knockout / modelTotal elo_diff is_knockout = 1 := by
      rw [div_add_div_same, div_add_div_same, ← htotdef, div_self htot.ne']
    rw [hsum]
    norm_num

/-- Claim C3, witnessed at the concrete vector `[2100, 2050, 50, 1]`. -/
theorem predictMatchOutcome_props_witness :
    ∃ h d a : ℝ,
      PredictMatchOutcome (2100 :: 2050 :: 50 :: 1 :: []) = .ok (h, d, a) ∧
      0 ≤ h ∧ h ≤ 1 ∧ 0 ≤ d ∧ d ≤ 1 ∧ 0 ≤ a ∧ a ≤ 1 ∧
      |h + d + a - 1| ≤ 1 / 1000000 ∧
      (modelTotal 50 1 ≤ 0 → (h, d, a) = (1 / 3, 1 / 3, 1 / 3)) :=
  predictMatchOutcome_props 2100 2050 50 1 []

/-- Claim C5 (counterexample to the near-equal clause): the feature vector
`[0, 0, 0, 0]` has its first three components equal (`elo_diff = 0`) and
knockout indicator `0`, and the model returns `(0.5, 0.35, 0.15)`: the draw
probability is exactly at the `0.35` ceiling, but the home-win and away-win
probabilities differ by `0.35` — they are not near-equal. -/
theorem predict_nearEqual_counterexample :
    PredictMatchOutcome (0 :: 0 :: 0 :: 0 :: ([] : List ℝ)) =
      .ok (1 / 2, 7 / 20, 3 / 20) ∧
    |(1 : ℝ) / 2 - 3 / 20| = 7 / 20 :=
  ⟨predict_eloDiff_zero 0 0 0 [], by rw [abs_of_pos (by norm_num)]; norm_num⟩

/-- Claim C5 (amended): for every feature vector whose `elo_diff` component
is `0` (in particular one whose first three components are all `0` with
knockout indicator `0`), the model returns exactly `(0.5, 0.35, 0.15)`: the
draw probability equals its configured ceiling `0.35`, while the home-win
probability exceeds the away-win probability by `0.35` (they are not
near-equal). -/
theorem predict_eloDiffZero_draw_at_ceiling (home_elo away_elo is_knockout : ℝ)
    (rest : List ℝ) :
    PredictMatchOutcome (home_elo :: away_elo :: 0 :: is_knockout :: rest) =
      .ok (1 / 2, 7 / 20, 3 / 20) ∧
    modelDraw 0 = 7 / 20 ∧ (1 : ℝ) / 2 - 3 / 20 = 7 / 20 :=
  ⟨predict_eloDiff_zero home_elo away_elo is_knockout rest,
    modelDraw_eloDiff_zero, by norm_num⟩

/-- Claim C8: `PredictMatchOutcome` fails — with `INVALID_ARGUMENT` and
detail `"expected at least 4 features"` — exactly when the feature vector
has fewer than 4 elements; on any vector with 4 or more elements it returns
some probability triple. -/
theorem predictMatchOutcome_invalidArgument_iff (features : List ℝ) :
    (features.length < 4 →
      PredictMatchOutcome features =
        .error ⟨.invalidArgument, "expected at least 4 features"⟩) ∧
    (4 ≤ features.length →
      ∃ p : ℝ × ℝ × ℝ, PredictMatchOutcome features = .ok p) := by
  refine ⟨predictMatchOutcome_short features, fun hlen => ?_⟩
  rcases features with _ | ⟨a, _ | ⟨b, _ | ⟨c, _ | ⟨d, t⟩⟩⟩⟩
  · simp at hlen
  · simp at hlen
  · simp at hlen
  · simp at hlen
  · rw [predictMatchOutcome_cons]
    by_cases htot : modelTotal c d ≤ 0
    · exact ⟨(1 / 3, 1 / 3, 1 / 3), if_pos htot⟩
    · exact ⟨_, if_neg htot⟩

/-- Claim C8, witnessed: `[1, 2, 3]` is rejected and `[0, 0, 0, 0]` is
accepted. -/
theorem predictMatchOutcome_invalidArgument_iff_witness :
    PredictMatchOutcome (1 :: 2 :: 3 :: ([] : List ℝ)) =
      .error ⟨.invalidArgument, "expected at least 4 features"⟩ ∧
    ∃ p : ℝ × ℝ × ℝ, PredictMatchOutcome (0 :: 0 :: 0 :: 0 :: []) = .ok p :=
  ⟨(predictMatchOutcome_invalidArgument_iff [1, 2, 3]).1 (by norm_num),
    (predictMatchOutcome_invalidArgument_iff [0, 0, 0, 0]).2 (by norm_num)⟩

/-- Claim C10: the model is a pure function of the first four feature
components — two invocations whose inputs agree on `features[:4]` return
identical results, whatever the later components are. -/
theorem predictMatchOutcome_depends_on_take4 (f g : List ℝ)
    (h : f.take 4 = g.take 4) : PredictMatchOutcome f = PredictMatchOutcome g := by
  rw [← predictMatchOutcome_take f, ← predictMatchOutcome_take g, h]

/-- Claim C10, witnessed: `[1, 2, 3, 4, 5]` and `[1, 2, 3, 4, 6]` agree on
their first four components and get identical predictions. -/
theorem predictMatchOutcome_depends_on_take4_witness :
    PredictMatchOutcome (1 :: 2 :: 3 :: 4 :: 5 :: ([] : List ℝ)) =
      PredictMatchOutcome (1 :: 2 :: 3 :: 4 :: 6 :: []) :=
  predictMatchOutcome_depends_on_take4 [1, 2, 3, 4, 5] [1, 2, 3, 4, 6] rfl

/-! ### Match provider (`src/services/match_service.py`) -/

/-- The `common_pb2.Match` metadata record (the proto field `match` is a
Lean keyword, so response structures below name it `matchInfo`). -/
structure Match where
  id : String
  home_team_id : String
  away_team_id : String
  kick_off_utc : String
  stage : String
  deriving DecidableEq, Repr

/-- `MatchRepository._matches`: the in-memory id-keyed match store. -/
def MatchRepository : Type := String → Option Match

/-- `MatchServiceServicer.GetMatch` as observed by a client stub: when the
repository has no entry the servicer sets `NOT_FOUND` with detail
`"Match not found"`, which the stub raises as an error. -/
def GetMatch (repo : MatchRepository) (match_id : String) : Except RpcError Match :=
  match repo match_id with
  | some m => .ok m
  | none => .error ⟨.notFound, "Match not found"⟩

/-! ### Prediction orchestrator (`src/services/prediction_service.py`)

Wall-clock instants (`time.time()` values) are modelled as exact rationals:
the code only stores them and compares differences against constants, so an
ordered field with decidable order is a faithful model and keeps every
orchestrator definition executable.  Each orchestrator entry point receives
the instant `now` at which it runs. -/

/-- One line of `SimplePredictionCache._data`: the
`(timestamp, home, draw, away)` tuple stored per match id. -/
structure CacheEntry where
  ts : ℚ
  home : ℝ
  draw : ℝ
  away : ℝ

/-- `SimplePredictionCache`: an id-keyed map of cache lines (the Python
`dict`). -/
def SimplePredictionCache : Type := String → Option CacheEntry

/-- `SimplePredictionCache.get`: `self._data.get(match_id)`. -/
def SimplePredictionCache.get (c : SimplePredictionCache) (match_id : String) :
    Option CacheEntry :=
  c match_id

/-- `SimplePredictionCache.set`: unconditionally overwrites the entry for
`match_id` with `(timestamp, home, draw, away)`. -/
def SimplePredictionCache.set (c : SimplePredictionCache) (match_id : String)
    (timestamp : ℚ) (home draw away : ℝ) : SimplePredictionCache :=
  fun k => if k = match_id then some ⟨timestamp, home, draw, away⟩ else c k

/-- The freshness read `GetPrediction` performs against the cache (spec
operation `get_if_fresh`): the stored triple is returned only when
`now - computed_at < max_age`; a stale entry and a missing entry are both
reported as `none`.  `GetPrediction` instantiates `max_age` with `10`. -/
def getIfFresh (c : SimplePredictionCache) (match_id : String)
    (now max_age : ℚ) : Option (ℝ × ℝ × ℝ) :=
  match c.get match_id with
  | some e => if now - e.ts < max_age then some (e.home, e.draw, e.away) else none
  | none => none

/-- The collaborator stubs held by `PredictionServiceServicer`: each call
either returns a payload or raises an `RpcError`. -/
structure Env where
  matchStub : String → Except RpcError Match
  featureStub : String → Except RpcError (List ℝ)
  modelStub : List ℝ → Except RpcError (ℝ × ℝ × ℝ)

/-- The orchestrator's mutable state: the shared cache, plus one counter
per collaborator recording how many calls have been issued to it (so that
"no Feature Builder call" is a statement about the state, not the trace). -/
structure OrchState where
  cache : SimplePredictionCache
  matchCalls : ℕ
  featureCalls : ℕ
  modelCalls : ℕ

/-- `PredictionServiceServicer.GetPredictionResponse` payload. -/
structure GetPredictionResponse where
  match_id : String
  matchInfo : Match
  home_win_prob : ℝ
  draw_prob : ℝ
  away_win_prob : ℝ

/-- `PredictionServiceServicer._compute_prediction`, run at instant `now`:
call the Match Provider, then the Feature Builder, then the Outcome Model;
a raised error aborts the remaining calls and propagates unchanged; on
success the cache entry for `match_id` is overwritten with the freshly
computed probabilities stamped `now`, and the response carries the match
metadata together with those probabilities. -/
def computePrediction (env : Env) (now : ℚ) (match_id : String) (s : OrchState) :
    Except RpcError GetPredictionResponse × OrchState :=
  let s := { s with matchCalls := s.matchCalls + 1 }
  match env.matchStub match_id with
  | .error e => (.error e, s)
  | .ok m =>
    let s := { s with featureCalls := s.featureCalls + 1 }
    match env.featureStub match_id with
    | .error e => (.error e, s)
    | .ok features =>
      let s := { s with modelCalls := s.modelCalls + 1 }
      match env.modelStub features with
      | .error e => (.error e, s)
      | .ok (h, d, a) =>
        let s := { s with cache := s.cache.set match_id now h d a }
        (.ok ⟨match_id, m, h, d, a⟩, s)

/-- `PredictionServiceServicer.GetPrediction`, run at instant `now`: on a
cache entry younger than 10 time-units, re-fetch the match metadata and
return it with the cached probabilities (the Python `if cached:` guard is
always true on a present 4-tuple, so it is exactly the `some` match); on a
missing or stale entry, fall through to `_compute_prediction`. -/
def GetPrediction (env : Env) (now : ℚ) (match_id : String) (s : OrchState) :
    Except RpcError GetPredictionResponse × OrchState :=
  match s.cache.get match_id with
  | some e =>
    if now - e.ts < 10 then
      let s := { s with matchCalls := s.matchCalls + 1 }
      match env.matchStub match_id with
      | .error err => (.error err, s)
      | .ok m => (.ok ⟨match_id, m, e.home, e.draw, e.away⟩, s)
    else
      computePrediction env now match_id s
  | none => computePrediction env now match_id s

/-- `PredictionServiceServicer.StreamPrediction`, started at instant `t`
and observed for `fuel` loop iterations (the fuel models how long the
subscriber stays before cancelling; the sequence itself is unbounded).
Each iteration runs `_compute_prediction` and yields its result, then
sleeps 5 time-units (`time.sleep(5.0)`), so the `i`-th iteration runs at
`t + 5 * i`.  A raised `RpcError` is caught by the surrounding
`except grpc.RpcError` handler, which ends the generator: the failed tick
contributes no emission and no further iterations run. -/
def streamRun (env : Env) (match_id : String) :
    ℚ → ℕ → OrchState → List GetPredictionResponse × OrchState
  | _, 0, s => ([], s)
  | t, fuel + 1, s =>
    match computePrediction env t match_id s with
    | (.error _, s') => ([], s')
    | (.ok r, s') =>
      let rec_result := streamRun env match_id (t + 5) fuel s'
      (r :: rec_result.1, rec_result.2)

/-! Evaluation lemmas for the orchestrator, one per control path. -/

theorem SimplePredictionCache.get_set_same (c : SimplePredictionCache)
    (match_id : String) (ts : ℚ) (h d a : ℝ) :
    (c.set match_id ts h d a).get match_id = some ⟨ts, h, d, a⟩ := by
  unfold SimplePredictionCache.get SimplePredictionCache.set
  simp

theorem SimplePredictionCache.get_set_other (c : SimplePredictionCache)
    (match_id k : String) (hne : k ≠ match_id) (ts : ℚ) (h d a : ℝ) :
    (c.set match_id ts h d a).get k = c.get k := by
  unfold SimplePredictionCache.get SimplePredictionCache.set
  rw [if_neg hne]

theorem computePrediction_match_error (env : Env) (now : ℚ) (match_id : String)
    (s : OrchState) (err : RpcError) (hm : env.matchStub match_id = .error err) :
    computePrediction env now match_id s =
      (.error err, { s with matchCalls := s.matchCalls + 1 }) := by
  unfold computePrediction
  rw [hm]

theorem computePrediction_feature_error (env : Env) (now : ℚ) (match_id : String)
    (s : OrchState) (m : Match) (err : RpcError)
    (hm : env.matchStub match_id = .ok m)
    (hf : env.featureStub match_id = .error err) :
    computePrediction env now match_id s =
      (.error err,
        { s with
            matchCalls := s.matchCalls + 1
            featureCalls := s.featureCalls + 1 }) := by
  unfold computePrediction
  rw [hm]
  dsimp only
  rw [hf]

theorem computePrediction_model_error (env : Env) (now : ℚ) (match_id : String)
    (s : OrchState) (m : Match) (features : List ℝ) (err : RpcError)
    (hm : env.matchStub match_id = .ok m)
    (hf : env.featureStub match_id = .ok features)
    (hmodel : env.modelStub features = .error err) :
    computePrediction env now match_id s =
      (.error err,
        { s with
            matchCalls := s.matchCalls + 1
            featureCalls := s.featureCalls + 1
            modelCalls := s.modelCalls + 1 }) := by
  unfold computePrediction
  rw [hm]
  dsimp only
  rw [hf]
  dsimp only
  rw [hmodel]

theorem computePrediction_ok (env : Env) (now : ℚ) (match_id : String)
    (s : OrchState) (m : Match) (features : List ℝ) (h d a : ℝ)
    (hm : env.matchStub match_id = .ok m)
    (hf : env.featureStub match_id = .ok features)
    (hmodel : env.modelStub features = .ok (h, d, a)) :
    computePrediction env now match_id s =
      (.ok ⟨match_id, m, h, d, a⟩,
        { s with
            matchCalls := s.matchCalls + 1
            featureCalls := s.featureCalls + 1
            modelCalls := s.modelCalls + 1
            cache := s.cache.set match_id now h d a }) := by
  unfold computePrediction
  rw [hm]
  dsimp only
  rw [hf]
  dsimp only
  rw [hmodel]

/-- Inversion: a successful `_compute_prediction` leaves, for the requested
id, a cache entry stamped `now` holding exactly the probabilities of the
response it returned. -/
theorem computePrediction_ok_inv (env : Env) (now : ℚ) (match_id : String)
    (s : OrchState) (r : GetPredictionResponse) (s' : OrchState)
    (h : computePrediction env now match_id s = (.ok r, s')) :
    s'.cache.get match_id =
      some ⟨now, r.home_win_prob, r.draw_prob, r.away_win_prob⟩ := by
  unfold computePrediction at h
  rcases hm : env.matchStub match_id with err | m <;> rw [hm] at h
  · simp at h
  · dsimp only at h
    rcases hf : env.featureStub match_id with err | features <;> rw [hf] at h
    · simp at h
    · dsimp only at h
      rcases hmodel : env.modelStub features with err | p <;> rw [hmodel] at h
      · simp at h
      · rcases p with ⟨ph, pd, pa⟩
        dsimp only at h
        obtain ⟨hr, hs⟩ := Prod.mk.injEq .. ▸ h
        obtain rfl := (Except.ok.injEq ..).mp hr
        rw [← hs]
        exact SimplePredictionCache.get_set_same ..

theorem getPrediction_miss (env : Env) (now : ℚ) (match_id : String)
    (s : OrchState) (h : s.cache.get match_id = none) :
    GetPrediction env now match_id s = computePrediction env now match_id s := by
  unfold GetPrediction
  rw [h]

theorem getPrediction_stale (env : Env) (now : ℚ) (match_id : String)
    (s : OrchState) (e : CacheEntry) (hc : s.cache.get match_id = some e)
    (hst : ¬ (now - e.ts < 10)) :
    GetPrediction env now match_id s = computePrediction env now match_id s := by
  unfold GetPrediction
  rw [hc]
  exact if_neg hst

theorem getPrediction_hit (env : Env) (now : ℚ) (match_id : String)
    (s : OrchState) (e : CacheEntry) (hc : s.cache.get match_id = some e)
    (hfresh : now - e.ts < 10) :
    GetPrediction env now match_id s =
      ((env.matchStub match_id).map
        (fun m => (⟨match_id, m, e.home, e.draw, e.away⟩ : GetPredictionResponse)),
        { s with matchCalls := s.matchCalls + 1 }) := by
  unfold GetPrediction
  rw [hc]
  dsimp only
  rw [if_pos hfresh]
  rcases hm : env.matchStub match_id with err | m <;> rfl

theorem streamRun_succ (env : Env) (match_id : String) (t : ℚ) (fuel : ℕ)
    (s : OrchState) :
    streamRun env match_id t (fuel + 1) s =
      match computePrediction env t match_id s with
      | (.error _, s') => ([], s')
      | (.ok r, s') =>
        (r :: (streamRun env match_id (t + 5) fuel s').1,
          (streamRun env match_id (t + 5) fuel s').2) := rfl

/-! Concrete fixtures used by the witnesses: the demo match installed by
`match_service.serve`, a repository holding only it, an empty repository,
and the orchestrator's initial state with an empty cache. -/

def demoMatch : Match := ⟨"1", "ARG", "FRA", "2022-12-18T15:00:00Z", "Final"⟩

def demoRepo : MatchRepository := fun k => if k = "1" then some demoMatch else none

def emptyRepo : MatchRepository := fun _ => none

def emptyCache : SimplePredictionCache := fun _ => none

def st0 : OrchState := ⟨emptyCache, 0, 0, 0⟩

def envOk : Env :=
  ⟨GetMatch demoRepo, fun _ => .ok [1500, 1500, 0, 0], fun _ => .ok (0, 1, 0)⟩

def envNoMatch : Env :=
  ⟨GetMatch emptyRepo, fun _ => .ok [1500, 1500, 0, 0], fun _ => .ok (0, 1, 0)⟩

def envFeatureErr : Env :=
  ⟨GetMatch demoRepo, fun _ => .error ⟨.invalidArgument, "bad features"⟩,
    fun _ => .ok (0, 1, 0)⟩

def stCached : OrchState :=
  ⟨fun k => if k = "1" then some ⟨0, 1, 0, 0⟩ else none, 0, 0, 0⟩

/-- Claim C9: writing `(h, d, a)` at time `T` unconditionally overwrites the
entry for that id and leaves every other id alone; a freshness read whose
`max_age` covers `now - T` returns exactly `(h, d, a)`, one whose `max_age`
does not (`max_age ≤ now - T`, in particular `max_age < now - T`) reports a
miss, and a read of a never-written id reports a miss.  Reads are pure
(`getIfFresh` only inspects the cache), so they never mutate cache state. -/
theorem cache_write_then_read (c : SimplePredictionCache) (match_id : String)
    (T now max_age : ℚ) (h d a : ℝ) :
    (c.set match_id T h d a).get match_id = some ⟨T, h, d, a⟩ ∧
    (∀ k, k ≠ match_id → (c.set match_id T h d a).get k = c.get k) ∧
    (now - T < max_age →
      getIfFresh (c.set match_id T h d a) match_id now max_age = some (h, d, a)) ∧
    (max_age ≤ now - T →
      getIfFresh (c.set match_id T h d a) match_id now max_age = none) ∧
    (c.get match_id = none → getIfFresh c match_id now max_age = none) := by
  refine ⟨SimplePredictionCache.get_set_same .., fun k hk =>
    SimplePredictionCache.get_set_other c match_id k hk T h d a, ?_, ?_, ?_⟩
  · intro hf
    unfold getIfFresh
    rw [SimplePredictionCache.get_set_same]
    exact if_pos hf
  · intro hs
    unfold getIfFresh
    rw [SimplePredictionCache.get_set_same]
    exact if_neg (not_lt.mpr hs)
  · intro h0
    unfold getIfFresh
    rw [h0]

/-- Claim C9, witnessed with the spec's numbers: write `(0.5, 0.2, 0.3)` at
`T = 0`; a read at `now = 3` with `max_age = 5` returns the triple exactly,
and a read with `max_age = 2` misses. -/
theorem cache_write_then_read_witness :
    getIfFresh (emptyCache.set "m" 0 (1 / 2) (1 / 5) (3 / 10)) "m" 3 5 =
      some (1 / 2, 1 / 5, 3 / 10) ∧
    getIfFresh (emptyCache.set "m" 0 (1 / 2) (1 / 5) (3 / 10)) "m" 3 2 = none :=
  ⟨(cache_write_then_read emptyCache "m" 0 3 5 (1 / 2) (1 / 5) (3 / 10)).2.2.1
      (by norm_num),
    (cache_write_then_read emptyCache "m" 0 3 2 (1 / 2) (1 / 5) (3 / 10)).2.2.2.1
      (by norm_num)⟩

/-- Claim C1: on a cache entry younger than 10 time-units, `GetPrediction`
returns the cached probabilities unchanged together with metadata freshly
fetched from the Match Provider, and the resulting state differs from the
input state only in the Match Provider call counter — no Feature Builder
call, no Outcome Model call, no cache write.  Consequently a second call
still inside the freshness window returns numerically identical
probabilities (with the metadata fetched again). -/
theorem getPrediction_cacheHit_fresh (env : Env) (match_id : String)
    (s : OrchState) (e : CacheEntry) (m : Match) (now now' : ℚ)
    (hc : s.cache.get match_id = some e)
    (hfresh : now - e.ts < 10) (hfresh' : now' - e.ts < 10)
    (hm : env.matchStub match_id = .ok m) :
    GetPrediction env now match_id s =
      (.ok ⟨match_id, m, e.home, e.draw, e.away⟩,
        { s with matchCalls := s.matchCalls + 1 }) ∧
    (GetPrediction env now' match_id (GetPrediction env now match_id s).2).1 =
      .ok ⟨match_id, m, e.home, e.draw, e.away⟩ := by
  have hmap : (env.matchStub match_id).map
      (fun mm => (⟨match_id, mm, e.home, e.draw, e.away⟩ : GetPredictionResponse)) =
      .ok ⟨match_id, m, e.home, e.draw, e.away⟩ := by
    rw [hm]
    rfl
  have h1 := getPrediction_hit env now match_id s e hc hfresh
  rw [hmap] at h1
  have h2 := getPrediction_hit env now' match_id
    { s with matchCalls := s.matchCalls + 1 } e hc hfresh'
  rw [hmap] at h2
  refine ⟨h1, ?_⟩
  rw [h1]
  dsimp only
  rw [h2]

/-- Claim C1, witnessed: with the demo match cached at time `0`, two calls
at times `1` and `2` both return the cached probabilities `(1, 0, 0)`. -/
theorem getPrediction_cacheHit_fresh_witness :
    GetPrediction envOk 1 "1" stCached =
      (.ok ⟨"1", demoMatch, 1, 0, 0⟩,
        { stCached with matchCalls := stCached.matchCalls + 1 }) ∧
    (GetPrediction envOk 2 "1" (GetPrediction envOk 1 "1" stCached).2).1 =
      .ok ⟨"1", demoMatch, 1, 0, 0⟩ :=
  getPrediction_cacheHit_fresh envOk "1" stCached ⟨0, 1, 0, 0⟩ demoMatch 1 2
    rfl (by norm_num) (by norm_num) rfl

/-- Claim C2: when the Match Provider's repository has no entry for `x`,
`GetPrediction x` fails with the `NOT_FOUND` error raised by
`MatchServiceServicer.GetMatch`, the Feature Builder and Outcome Model are
never invoked, the cache is left exactly as it was — in particular, if the
cache had no entry for `x` before the call it has none afterwards. -/
theorem getPrediction_notFound (repo : MatchRepository) (env : Env) (now : ℚ)
    (x : String) (s : OrchState)
    (henv : env.matchStub = GetMatch repo) (hx : repo x = none) :
    (GetPrediction env now x s).1 = .error ⟨.notFound, "Match not found"⟩ ∧
    (GetPrediction env now x s).2.featureCalls = s.featureCalls ∧
    (GetPrediction env now x s).2.modelCalls = s.modelCalls ∧
    (GetPrediction env now x s).2.cache = s.cache ∧
    (s.cache.get x = none → (GetPrediction env now x s).2.cache.get x = none) := by
  have hstub : env.matchStub x = .error ⟨.notFound, "Match not found"⟩ := by
    rw [henv]
    unfold GetMatch
    rw [hx]
  have hcomp := computePrediction_match_error env now x s _ hstub
  rcases hcase : s.cache.get x with _ | e
  · rw [getPrediction_miss env now x s hcase, hcomp]
    exact ⟨rfl, rfl, rfl, rfl, fun _ => hcase⟩
  · by_cases hfresh : now - e.ts < 10
    · have h1 := getPrediction_hit env now x s e hcase hfresh
      rw [hstub] at h1
      rw [h1]
      exact ⟨rfl, rfl, rfl, rfl, fun hnone => Option.noConfusion hnone⟩
    · rw [getPrediction_stale env now x s e hcase hfresh, hcomp]
      exact ⟨rfl, rfl, rfl, rfl, fun hnone => Option.noConfusion hnone⟩

/-- Claim C2, witnessed: id `"X"` is unknown to the empty repository;
`GetPrediction` on the initial state fails with NOT_FOUND and the
(initially empty) cache still has no entry for `"X"`. -/
theorem getPrediction_notFound_witness :
    (GetPrediction envNoMatch 0 "X" st0).1 =
      .error ⟨.notFound, "Match not found"⟩ ∧
    (GetPrediction envNoMatch 0 "X" st0).2.featureCalls = st0.featureCalls ∧
    (GetPrediction envNoMatch 0 "X" st0).2.modelCalls = st0.modelCalls ∧
    (GetPrediction envNoMatch 0 "X" st0).2.cache = st0.cache ∧
    (st0.cache.get "X" = none →
      (GetPrediction envNoMatch 0 "X" st0).2.cache.get "X" = none) :=
  getPrediction_notFound emptyRepo envNoMatch 0 "X" st0 rfl rfl

/-- Claim C6: if, during a recomputation, the Feature Builder reports an
error — or the Feature Builder succeeds and the Outcome Model reports an
error — then `_compute_prediction` propagates exactly that error and the
cache is left untouched; and on a cache miss `GetPrediction` is exactly
`_compute_prediction`, so the same holds for `GetPrediction`. -/
theorem computePrediction_collab_error (env : Env) (now : ℚ) (match_id : String)
    (s : OrchState) (e : RpcError) (m : Match)
    (hm : env.matchStub match_id = .ok m)
    (hfm : env.featureStub match_id = .error e ∨
      ∃ fs, env.featureStub match_id = .ok fs ∧ env.modelStub fs = .error e) :
    (computePrediction env now match_id s).1 = .error e ∧
    (computePrediction env now match_id s).2.cache = s.cache ∧
    (s.cache.get match_id = none →
      GetPrediction env now match_id s = computePrediction env now match_id s) := by
  refine ⟨?_, ?_, getPrediction_miss env now match_id s⟩ <;>
    rcases hfm with hf | ⟨fs, hf, hmod⟩
  · rw [computePrediction_feature_error env now match_id s m e hm hf]
  · rw [computePrediction_model_error env now match_id s m fs e hm hf hmod]
  · rw [computePrediction_feature_error env now match_id s m e hm hf]
  · rw [computePrediction_model_error env now match_id s m fs e hm hf hmod]

/-- Claim C6, witnessed: a Feature Builder failure on the demo match
propagates unchanged and leaves the initial cache untouched. -/
theorem computePrediction_collab_error_witness :
    (computePrediction envFeatureErr 0 "1" st0).1 =
      .error ⟨.invalidArgument, "bad features"⟩ ∧
    (computePrediction envFeatureErr 0 "1" st0).2.cache = st0.cache ∧
    (st0.cache.get "1" = none →
      GetPrediction envFeatureErr 0 "1" st0 = computePrediction envFeatureErr 0 "1" st0) :=
  computePrediction_collab_error envFeatureErr 0 "1" st0
    ⟨.invalidArgument, "bad features"⟩ demoMatch rfl (Or.inl rfl)

/-- Claim C7: every element the stream emits is produced by the full
recompute path `_compute_prediction` — Match Provider, Feature Builder,
Outcome Model, then a cache write stamped with the tick's instant (never
the cache-freshness hit path, which `StreamPrediction` never consults) —
with the first element computed immediately at subscription time `t` and
the `i`-th element at `t + 5 * i` (one fixed 5 time-unit wait between
ticks); and while every collaborator keeps succeeding the loop emits one
element per tick indefinitely (one per unit of observation fuel). -/
theorem streamRun_recompute_path (env : Env) (match_id : String) (t : ℚ)
    (n : ℕ) (s : OrchState) :
    (∀ i : ℕ, ∀ r, (streamRun env match_id t n s).1.get? i = some r →
      ∃ si : OrchState,
        (computePrediction env (t + 5 * i) match_id si).1 = .ok r ∧
        (computePrediction env (t + 5 * i) match_id si).2.cache.get match_id =
          some ⟨t + 5 * i, r.home_win_prob, r.draw_prob, r.away_win_prob⟩) ∧
    ((∃ m, env.matchStub match_id = .ok m) →
      (∃ fs p, env.featureStub match_id = .ok fs ∧ env.modelStub fs = .ok p) →
      (streamRun env match_id t n s).1.length = n) := by
  induction n generalizing t s with
  | zero =>
    refine ⟨fun i r h => ?_, fun _ _ => rfl⟩
    simp [streamRun] at h
  | succ n ih =>
    rw [streamRun_succ]
    rcases hcp : computePrediction env t match_id s with ⟨res, s'⟩
    rcases res with err | r
    · dsimp only
      refine ⟨fun i r h => ?_, fun hms hfs => ?_⟩
      · simp at h
      · obtain ⟨m, hm⟩ := hms
        obtain ⟨fs, ⟨ph, pd, pa⟩, hf, hmod⟩ := hfs
        rw [computePrediction_ok env t match_id s m fs ph pd pa hm hf hmod] at hcp
        simp at hcp
    · dsimp only
      refine ⟨fun i r' h => ?_, fun hms hfs => ?_⟩
      · cases i with
        | zero =>
          rw [List.get?_cons_zero] at h
          obtain rfl := Option.some.inj h
          have ht0 : t + 5 * ((0 : ℕ) : ℚ) = t := by norm_num
          refine ⟨s, ?_, ?_⟩
          · rw [ht0, hcp]
          · rw [ht0, hcp]
            exact computePrediction_ok_inv env t match_id s r s' hcp
        | succ i =>
          rw [List.get?_cons_succ] at h
          have htime : t + 5 * ((i + 1 : ℕ) : ℚ) = (t + 5) + 5 * (i : ℚ) := by
            push_cast
            ring
          rw [htime]
          exact (ih (t + 5) s').1 i r' h
      · rw [List.length_cons, (ih (t + 5) s').2 hms hfs]

/-- Claim C7, witnessed: subscribing to the demo match with all
collaborators healthy yields one emission per observed tick. -/
theorem streamRun_recompute_path_witness :
    (streamRun envOk "1" 0 2 st0).1.length = 2 :=
  (streamRun_recompute_path envOk "1" 0 2 st0).2 ⟨demoMatch, rfl⟩
    ⟨[1500, 1500, 0, 0], (0, 1, 0), rfl, rfl⟩

/-- Claim C4 (counterexample to "the stream continues to the next tick"):
with the Match Provider reporting NOT_FOUND and fuel for three ticks, the
stream emits nothing — but it also makes only ONE Match Provider attempt,
not three: the `except grpc.RpcError` around the loop catches the failure
raised during the first tick and ends the generator, so the stream
terminates instead of retrying on subsequent ticks as the claim states. -/
theorem streamPrediction_notFound_stops_counterexample :
    (streamRun envNoMatch "X" 0 3 st0).1 = [] ∧
    (streamRun envNoMatch "X" 0 3 st0).2.matchCalls = 1 ∧
    (streamRun envNoMatch "X" 0 3 st0).2.matchCalls ≠ 3 := by
  have h1 : (streamRun envNoMatch "X" 0 3 st0).2.matchCalls = 1 := rfl
  refine ⟨rfl, h1, ?_⟩
  rw [h1]
  norm_num

/-- Claim C4 (amended): a collaborator failure during a tick — including a
NOT_FOUND from the Match Provider — produces no emission for that interval
and propagates no error to the subscriber, but it does not merely skip the
tick: the `except grpc.RpcError` handler ends the loop, so the stream
terminates silently after the failed tick, with no further collaborator
calls (the final state is exactly the state left by the single failed
`_compute_prediction`). -/
theorem streamRun_error_terminates (env : Env) (match_id : String) (t : ℚ)
    (fuel : ℕ) (s : OrchState) (e : RpcError)
    (h : (computePrediction env t match_id s).1 = .error e) :
    streamRun env match_id t (fuel + 1) s =
      ([], (computePrediction env t match_id s).2) := by
  rw [streamRun_succ]
  rcases hcp : computePrediction env t match_id s with ⟨res, s'⟩
  rw [hcp] at h
  dsimp only at h
  subst h
  rfl

/-- Claim C4 (amended), witnessed: a NOT_FOUND during the first tick ends
the stream with no emissions even though two more ticks of fuel remain. -/
theorem streamRun_error_terminates_witness :
    streamRun envNoMatch "X" 0 3 st0 =
      ([], (computePrediction envNoMatch 0 "X" st0).2) :=
  streamRun_error_terminates envNoMatch "X" 0 2 st0
    ⟨.notFound, "Match not found"⟩ rfl

end AiScoPre
